import Mathlib

/-!
# Verification of the fixed-point tick / sqrt-price core of `pyexchange`

This file is a shallow embedding, in Lean 4, of the arithmetic core of the
repository: `pyexchange/uniswapv3_math.py` and the position/pool logic of
`pyexchange/uniswapv3_entities.py`, together with proofs and refutations of
the specification's claims about them.

## Modelling conventions

* The Python code wraps its integers in `fxpmath.Fxp` objects, but every
  quantity involved is integer-valued (ticks, Q64.96 square-root prices,
  the Q128.128 ladder accumulator, liquidity).  We model such values as
  `Nat` (they are non-negative) and ticks as `Int`, with Python's operators
  read at their integer meaning, which is the meaning of the upstream
  `uniswap-v3-sdk` JSBI code the Python is a line-by-line port of:
  `*` is multiplication, `x >> n` is a floor shift, `x << n` multiplies by
  `2 ^ n`, `&` is bitwise and, `%` is mod, and `/` on these integer
  quantities is floor division.
* Code that raises a Python exception on every path, or on a distinguished
  path (negative shift count, division by zero, an unbound name), is
  modelled with `Option`: `none` is a raised exception.
* Python name resolution failures are decided from the source text: a name
  referenced by a function body that is neither local, nor a parameter, nor
  bound at module level in that file, raises `NameError`.  Where a modelled
  body provably raises we record the offending source line in the doc
  comment and translate the body up to the raising statement.
* `most_significant_bit` (line 57) computes `int(math.log(x, 2))` through
  floating point.  We model it as the exact integer base-2 logarithm
  `Nat.log2`, which is the function's documented intent ("returns the most
  significant bit"); every theorem below evaluates it only at inputs where
  the floating-point computation provably agrees with the exact one.
-/

set_option maxRecDepth 40000
set_option maxHeartbeats 4000000000

/-! ## Constants of `uniswapv3_math.py` (lines 44-53) -/

/-- Line 44 of `uniswapv3_math.py`. -/
def MIN_TICK : ℤ := -887272

/-- Line 45 of `uniswapv3_math.py`. -/
def MAX_TICK : ℤ := 887272

/-- Line 48 of `uniswapv3_math.py`: the largest unsigned 256-bit value. -/
def MAX_UINT256 : ℕ := 0xffffffffffffffffffffffffffffffffffffffffffffffffffffffffffffffff

/-- Line 52 of `uniswapv3_math.py`. -/
def Q96 : ℕ := 2 ^ 96

/-- Line 53 of `uniswapv3_math.py`: `Q96 ** 2`. -/
def Q192 : ℕ := Q96 ^ 2

/-! ## `mul_shift` and the binary-exponentiation ladder (lines 63-116) -/

/-- Lines 63-70 of `uniswapv3_math.py`: multiply by a 128-fractional-bit
constant and keep the high half of the 256-bit product. -/
def mul_shift (value : ℕ) (multiply_by : ℕ) : ℕ :=
  (value * multiply_by) >>> 128

/-- Steps of the ladder for bits 0-9 of `abs_tick`: the initialisation on
line 77 of `uniswapv3_math.py` and the `mul_shift` steps for masks
`0x2` - `0x200` (lines 79-96).  `high_ladder a (low_ladder a)` is
definitionally the whole ladder; the split is for analysis only. -/
def low_ladder (abs_tick : ℕ) : ℕ :=
  let ratio := if abs_tick &&& 0x1 ≠ 0 then 0xfffcb933bd6fad37aa2d162d1a594001
               else 0x100000000000000000000000000000000
  let ratio := if abs_tick &&& 0x2 ≠ 0 then mul_shift ratio 0xfff97272373d413259a46990580e213a else ratio
  let ratio := if abs_tick &&& 0x4 ≠ 0 then mul_shift ratio 0xfff2e50f5f656932ef12357cf3c7fdcc else ratio
  let ratio := if abs_tick &&& 0x8 ≠ 0 then mul_shift ratio 0xffe5caca7e10e4e61c3624eaa0941cd0 else ratio
  let ratio := if abs_tick &&& 0x10 ≠ 0 then mul_shift ratio 0xffcb9843d60f6159c9db58835c926644 else ratio
  let ratio := if abs_tick &&& 0x20 ≠ 0 then mul_shift ratio 0xff973b41fa98c081472e6896dfb254c0 else ratio
  let ratio := if abs_tick &&& 0x40 ≠ 0 then mul_shift ratio 0xff2ea16466c96a3843ec78b326b52861 else ratio
  let ratio := if abs_tick &&& 0x80 ≠ 0 then mul_shift ratio 0xfe5dee046a99a2a811c461f1969c3053 else ratio
  let ratio := if abs_tick &&& 0x100 ≠ 0 then mul_shift ratio 0xfcbe86c7900a88aedcffc83b479aa3a4 else ratio
  if abs_tick &&& 0x200 ≠ 0 then mul_shift ratio 0xf987a7253ac413176f2b074cf7815e54 else ratio

/-- Steps of the ladder for bits 10-19 of `abs_tick`: the `mul_shift` steps
for masks `0x400` - `0x80000` (lines 97-116 of `uniswapv3_math.py`),
applied to an incoming accumulator `x`. -/
def high_ladder (abs_tick : ℕ) (x : ℕ) : ℕ :=
  let ratio := x
  let ratio := if abs_tick &&& 0x400 ≠ 0 then mul_shift ratio 0xf3392b0822b70005940c7a398e4b70f3 else ratio
  let ratio := if abs_tick &&& 0x800 ≠ 0 then mul_shift ratio 0xe7159475a2c29b7443b29c7fa6e889d9 else ratio
  let ratio := if abs_tick &&& 0x1000 ≠ 0 then mul_shift ratio 0xd097f3bdfd2022b8845ad8f792aa5825 else ratio
  let ratio := if abs_tick &&& 0x2000 ≠ 0 then mul_shift ratio 0xa9f746462d870fdf8a65dc1f90e061e5 else ratio
  let ratio := if abs_tick &&& 0x4000 ≠ 0 then mul_shift ratio 0x70d869a156d2a1b890bb3df62baf32f7 else ratio
  let ratio := if abs_tick &&& 0x8000 ≠ 0 then mul_shift ratio 0x31be135f97d08fd981231505542fcfa6 else ratio
  let ratio := if abs_tick &&& 0x10000 ≠ 0 then mul_shift ratio 0x9aa508b5b7a84e1c677de54f3e99bc9 else ratio
  let ratio := if abs_tick &&& 0x20000 ≠ 0 then mul_shift ratio 0x5d6af8dedb81196699c329225ee604 else ratio
  let ratio := if abs_tick &&& 0x40000 ≠ 0 then mul_shift ratio 0x2216e584f5fa1ea926041bedfe98 else ratio
  if abs_tick &&& 0x80000 ≠ 0 then mul_shift ratio 0x48a170391f7dc42444e8fa2 else ratio

/-- Lines 77-116 of `uniswapv3_math.py`: the full 20-step monotonic
binary-exponentiation ladder over the bits of `abs_tick`, producing the
Q128.128 approximation of `1.0001 ^ (-abs_tick / 2)`.  Definitionally equal
to `high_ladder abs_tick (low_ladder abs_tick)`. -/
def ladder_ratio (abs_tick : ℕ) : ℕ :=
  high_ladder abs_tick (low_ladder abs_tick)

/-- Analysis constant for the monotonicity proof: a lower bound on the
decrease of `low_ladder` between consecutive values of its argument
(established below by exhaustive check over the 10-bit block). -/
def low_gap_min : ℕ := 16165365938083567737134153637293882

/-- Lines 75-119 of `uniswapv3_math.py`: absolute value of the tick
(line 75), the ladder, and the reciprocal step `ratio = MAX_UINT256 / ratio`
taken when `tick > 0` (lines 118-119). -/
def tick_ratio_x128 (tick : ℤ) : ℕ :=
  let abs_tick : ℕ := (if tick < 0 then tick * (-1) else tick).toNat
  let ratio := ladder_ratio abs_tick
  if tick > 0 then MAX_UINT256 / ratio else ratio

/-- Lines 72-127 of `uniswapv3_math.py` (`get_sqrt_ratio_at_tick`).  After
the ladder and the reciprocal step, the final conversion (lines 121-127) is
translated verbatim: the code tests `ratio % q32 >= ZERO` - which is always
true for these non-negative values - and in that branch adds `ZERO`, so both
branches return the floor `ratio / 2 ^ 32`.  (The function performs no
domain check on `tick`; its only assertion is an `isinstance` check.) -/
def get_sqrt_ratio_at_tick (tick : ℤ) : ℕ :=
  let ratio := tick_ratio_x128 tick
  let q32 : ℕ := 2 ^ 32
  if ratio % q32 ≥ 0 then ratio / q32 + 0 else ratio / q32

/-! ## `get_tick_at_sqrt_ratio` (lines 57-60 and 132-184) -/

/-- Fuel-driven structural recursion computing the integer base-2
logarithm: with `fuel ≥ x` it returns the exponent of the highest set bit
of `x` (and `0` on `x = 0`). -/
def log2_fuel : ℕ → ℕ → ℕ
  | 0, _ => 0
  | fuel + 1, x => if 2 ≤ x then log2_fuel fuel (x / 2) + 1 else 0

/-- Lines 57-60 of `uniswapv3_math.py`: `int(math.log(x, 2))`, modelled as
the exact integer base-2 logarithm (see the header), written with explicit
fuel so that it reduces by kernel computation.  256 units of fuel are exact
for every `x < 2 ^ 256`, which covers all values the callers produce (the
code right-shifts the result of `x <<< 32` for a 160-bit price). -/
def most_significant_bit (x : ℕ) : ℕ :=
  log2_fuel 256 x

/-- Lines 132-184 of `uniswapv3_math.py` (`get_tick_at_sqrt_ratio`).
The input is shifted to Q128.128 (line 141).  The normalisation branch
(lines 146-153) tests `msb > 128`; when `msb = 128` the `else` branch
computes `square_root_ratio_x128 << (127 - msb)` with the negative shift
count `-1`, which raises `ValueError` on Python integers (and is equally
unsupported by `Fxp`): that path is `none`.  The 14 squaring iterations
(lines 160-171) accumulate the fractional log2 into a signed integer with
Python's two's-complement `|`, which is `Int.lor`; `f << (63 - i)` on the
non-negative `f` is a `Nat` shift.  `log_2 = (msb - 128) << 64` (line 156)
is `(msb - 128) * 2 ^ 64` on a possibly negative value, and the final
`>> 128` (lines 175-176) is Python's flooring arithmetic shift, which is
`Int`'s `>>>`.  Lines 178-184 resolve the remaining ambiguity by comparing
`get_sqrt_ratio_at_tick tick_high` with the input. -/
def get_tick_at_sqrt_ratio (sqrtRatioX96 : ℕ) : Option ℤ :=
  let square_root_ratio_x128 := sqrtRatioX96 <<< 32
  let msb := most_significant_bit square_root_ratio_x128
  let r0 : Option ℕ :=
    if msb > 128 then some (square_root_ratio_x128 >>> (msb - 127))
    else if msb ≤ 127 then some (square_root_ratio_x128 <<< (127 - msb))
    else none
  match r0 with
  | none => none
  | some r =>
    let log_2 : ℤ := ((msb : ℤ) - 128) * 2 ^ 64
    let state := (List.range 14).foldl
      (fun (s : ℕ × ℤ) (i : ℕ) =>
        let r := (s.1 * s.1) >>> 127
        let f := r >>> 128
        let log_2 := Int.lor s.2 ((f <<< (63 - i) : ℕ) : ℤ)
        (r >>> f, log_2)) (r, log_2)
    let log_sqrt10001 := state.2 * 255738958999603826347141
    let tick_low := (log_sqrt10001 - 3402992956809132418596140100660247210) >>> (128 : ℕ)
    let tick_high := (log_sqrt10001 + 291339464771989622907027621153398088495) >>> (128 : ℕ)
    if tick_low = tick_high then some tick_low
    else if get_sqrt_ratio_at_tick tick_high ≤ sqrtRatioX96 then some tick_high
    else some tick_low

/-! ## `mul_div_rounding_up` and the amount deltas (lines 204-260) -/

/-- Lines 204-215 of `uniswapv3_math.py`: `floor(a * b / denominator)`,
plus one when the division leaves a remainder.  A zero `denominator` raises
`ZeroDivisionError` at `product / denominator`, modelled as `none`. -/
def mul_div_rounding_up (a : ℕ) (b : ℕ) (denominator : ℕ) : Option ℕ :=
  if denominator = 0 then none
  else
    let product := a * b
    let result := product / denominator
    if product % denominator ≠ 0 then some (result + 1) else some result

/-- Lines 220-229 of `uniswapv3_math.py`
(`SqrtPriceMath.invert_ratio_if_needed`).  The body swaps its two local
variables when `sqrtRatioAX96 > sqrtRatioBX96` but contains no `return`
statement, so on every path the function returns Python's `None` - despite
its `-> Tuple` annotation.  `none` is the faithful translation of both
paths; the dead local swap is reproduced for fidelity. -/
def invert_ratio_if_needed (sqrtRatioAX96 : ℕ) (sqrtRatioBX96 : ℕ) : Option (ℕ × ℕ) :=
  if sqrtRatioAX96 > sqrtRatioBX96 then
    let old_sqrtRatioBX96 := sqrtRatioBX96
    let old_sqrtRatioAX96 := sqrtRatioAX96
    let _sqrtRatioAX96 := old_sqrtRatioBX96
    let _sqrtRatioBX96 := old_sqrtRatioAX96
    none
  else none

/-- Lines 231-246 of `uniswapv3_math.py` (`SqrtPriceMath.get_amount_0_delta`).
Line 238 unpacks the result of `invert_ratio_if_needed` into two names;
since that call returns `None`, the unpacking raises `TypeError` on every
input, modelled by the `none` branch.  The remainder of the body (lines
240-246) is translated for fidelity but is unreachable; in it Python's
integer divisions of the upstream port are floor divisions. -/
def get_amount_0_delta (sqrtRatioAX96 : ℕ) (sqrtRatioBX96 : ℕ)
    (liquidity : ℕ) (round_up : Bool) : Option ℕ :=
  match invert_ratio_if_needed sqrtRatioAX96 sqrtRatioBX96 with
  | none => none
  | some (sqrtRatioAX96, sqrtRatioBX96) =>
    let numerator_1 := liquidity <<< 96
    let numerator_2 := sqrtRatioBX96 - sqrtRatioAX96
    if round_up then
      (mul_div_rounding_up numerator_1 numerator_2 sqrtRatioBX96).bind
        (fun x => mul_div_rounding_up x 1 sqrtRatioAX96)
    else
      some (numerator_1 * numerator_2 / sqrtRatioBX96 / sqrtRatioAX96)

/-- Lines 248-260 of `uniswapv3_math.py` (`SqrtPriceMath.get_amount_1_delta`).
Same structure as `get_amount_0_delta`: line 255 unpacks the `None`
returned by `invert_ratio_if_needed`, raising `TypeError` on every input. -/
def get_amount_1_delta (sqrtRatioAX96 : ℕ) (sqrtRatioBX96 : ℕ)
    (liquidity : ℕ) (round_up : Bool) : Option ℕ :=
  match invert_ratio_if_needed sqrtRatioAX96 sqrtRatioBX96 with
  | none => none
  | some (sqrtRatioAX96, sqrtRatioBX96) =>
    if round_up then
      mul_div_rounding_up liquidity (sqrtRatioBX96 - sqrtRatioAX96) Q96
    else
      some (liquidity * (sqrtRatioBX96 - sqrtRatioAX96) / Q96)

/-! ## Entities module: `uniswapv3_entities.py`

The module imports (lines 18-28) bind exactly these names at module level:
`time`, `Fxp`, `List`, `Optional`, `Tuple`, `Web3`, `get_sqrt_ratio_at_tick`,
`SqrtPriceMath`, `Address`, `Calldata`, `Invocation`, `Token`, `Wad`,
`bytes_to_int`, `bytes_to_hexstring`, plus the classes defined in the file.
In particular the math-module names `Q192`, `encodeSqrtRatioX96`,
`MIN_SQRT_RATIO` and `MAX_SQRT_RATIO` are NOT imported, so any body that
references them unqualified raises `NameError`. -/

/-- Token metadata (`pymaker.model.Token`); the claims never inspect it. -/
structure Token where
  address : ℕ
  decimals : ℕ

/-- Lines 31-43 of `uniswapv3_entities.py` (`PriceFraction`): base and quote
tokens with the quote/base integer ratio. -/
structure PriceFraction where
  base_token : Token
  quote_token : Token
  numerator : ℤ
  denominator : ℤ

/-- Lines 42-43 of `uniswapv3_entities.py` (`PriceFraction.get_float_price`):
the body is `return float(numerator / denominator)`, referencing the bare
names `numerator` and `denominator`, which are neither locals nor module
globals (the attributes would be `self.numerator`); every call raises
`NameError`, modelled as `none`. -/
def PriceFraction.get_float_price (_self : PriceFraction) : Option ℚ :=
  none

/-- Lines 46-63 of `uniswapv3_entities.py`: the attributes stored by
`Pool.__init__` before it reaches the failing line 64. -/
structure Pool where
  token_0 : Token
  token_1 : Token
  fee : ℤ
  square_root_ratio_x96 : ℕ
  liquidity : ℕ
  tick_current : ℤ
  ticks : List ℤ

/-- Lines 48-65 of `uniswapv3_entities.py` (`Pool.__init__`): after the
`isinstance` assertions it binds the seven attributes (lines 57-63, the
`let` below), then line 64 evaluates `self.token_0_price =
get_token_1_price()`.  `get_token_1_price` is called as an unqualified name;
it is not a local, not a parameter, and not a module-level binding (as a
method it is only reachable through `self.`), so the constructor raises
`NameError` before any `Pool` object is produced - modelled as `none`. -/
def Pool.init (token_0 : Token) (token_1 : Token) (fee : ℤ)
    (square_root_ratio_x96 : ℕ) (liquidity : ℕ) (tick_current : ℤ)
    (ticks : List ℤ) : Option Pool :=
  let _self : Pool :=
    { token_0 := token_0, token_1 := token_1, fee := fee,
      square_root_ratio_x96 := square_root_ratio_x96, liquidity := liquidity,
      tick_current := tick_current, ticks := ticks }
  none

/-- Lines 67-69 of `uniswapv3_entities.py` (`Pool.get_token_0_price`): the
body is `PriceFraction(self.token_0, self.token_1, Q192, (sq * sq))`, but
`Q192` is defined in `uniswapv3_math.py` and is not imported by this module
(line 24 imports only `get_sqrt_ratio_at_tick` and `SqrtPriceMath`), so the
call raises `NameError`, modelled as `none`. -/
def Pool.get_token_0_price (_self : Pool) : Option PriceFraction :=
  none

/-- Lines 76-93 of `uniswapv3_entities.py` (`Position.__init__`): a pool
reference, tick range and liquidity. -/
structure Position where
  pool : Pool
  tick_lower : ℤ
  tick_upper : ℤ
  liquidity : ℕ

/-- The pair of sqrt-ratio arguments that `Position.amount_in_token_0`
(lines 103-121 of `uniswapv3_entities.py`) passes to
`SqrtPriceMath.get_amount_0_delta`, by branch: the below-range branch
(lines 106-112) passes `get_sqrt_ratio_at_tick(tick_lower),
get_sqrt_ratio_at_tick(tick_upper)`; the within-range branch (lines
113-119) passes the SAME pair - `get_sqrt_ratio_at_tick(self.tick_lower)`,
not the pool's current sqrt price; the above-range branch (lines 120-121)
makes no delta call and sets the amount to zero (`none` here). -/
def amount_in_token_0_delta_args (tick_current : ℤ) (tick_lower : ℤ)
    (tick_upper : ℤ) : Option (ℕ × ℕ) :=
  if tick_current < tick_lower then
    some (get_sqrt_ratio_at_tick tick_lower, get_sqrt_ratio_at_tick tick_upper)
  else if tick_current < tick_upper then
    some (get_sqrt_ratio_at_tick tick_lower, get_sqrt_ratio_at_tick tick_upper)
  else
    none

/-- Lines 181-198 of `uniswapv3_entities.py`
(`Position._ratios_after_slippage`): after the assertion
`slippage_tolerance < 1 and slippage_tolerance > 0` (line 183, a failure
raises `AssertionError`, the outer `none`), line 185 evaluates
`self.pool.get_token_0_price().get_float_price()`.  `get_token_0_price`
raises `NameError` on `Q192`, and `get_float_price` would raise `NameError`
on `numerator`, so the price computation yields `none` and the function
never reaches its clamping code.  Even with a price, line 188 would raise:
`price_lower` is a Python float, which has no `.numerator` attribute, and
`encodeSqrtRatioX96`, `MIN_SQRT_RATIO` and `MAX_SQRT_RATIO` are not
imported into this module.  The unreachable `some` branch records that. -/
def ratios_after_slippage (pool : Pool) (slippage_tolerance : ℚ) : Option (ℚ × ℚ) :=
  if slippage_tolerance < 1 ∧ slippage_tolerance > 0 then
    match (Pool.get_token_0_price pool).bind PriceFraction.get_float_price with
    | some _ => none
    | none => none
  else none

/-! ## Claim theorems (except the monotonicity claim, developed below) -/

/-- Claim C8: `get_sqrt_ratio_at_tick 0` is exactly
`79228162514264337593543950336`, the Q64.96 encoding `2 ^ 96` of 1. -/
theorem get_sqrt_ratio_at_tick_zero_eq_q96 :
    get_sqrt_ratio_at_tick 0 = 79228162514264337593543950336 ∧
    (79228162514264337593543950336 : ℕ) = 2 ^ 96 := by
  decide

/-- Claim C3 (refutation exhibit): `get_sqrt_ratio_at_tick` performs no
domain check, so at tick `MAX_TICK + 1 = 887273` it returns a value instead
of failing with a `DomainError`. -/
theorem get_sqrt_ratio_at_tick_past_max_tick_returns :
    get_sqrt_ratio_at_tick (MAX_TICK + 1) =
      1461519773993667319147974727612463920317348006939 := by
  decide

/-- Claim C5 (refutation exhibit): at tick `-1` the discarded low 32 bits
of the Q128.128 accumulator are nonzero, yet the final conversion returns
the floor `ratio / 2 ^ 32` and not the ceiling: the code's `+ ZERO` under
an always-true test never rounds up. -/
theorem final_conversion_floors_not_ceils :
    tick_ratio_x128 (-1) % 2 ^ 32 ≠ 0 ∧
    get_sqrt_ratio_at_tick (-1) = tick_ratio_x128 (-1) / 2 ^ 32 ∧
    get_sqrt_ratio_at_tick (-1) ≠ tick_ratio_x128 (-1) / 2 ^ 32 + 1 := by
  decide

/-- Claim C1 (refutation exhibit): the round trip fails at tick 0.
`get_sqrt_ratio_at_tick 0 = 2 ^ 96`, and on that input
`get_tick_at_sqrt_ratio` computes `msb = 128`, fails the `msb > 128` test,
and the `else` branch's shift count `127 - msb = -1` raises `ValueError`
(`none`), so the round trip does not return 0. -/
theorem round_trip_crashes_at_tick_zero :
    get_tick_at_sqrt_ratio (get_sqrt_ratio_at_tick 0) = none := by
  decide

/-- Claim C4: `mul_div_rounding_up a b denominator` is the floor of
`a * b / denominator` when the division is exact and one more than the
floor otherwise, and fails (raises `ZeroDivisionError`) when the
denominator is zero. -/
theorem mul_div_rounding_up_spec :
    (∀ a b denominator : ℕ, denominator ≠ 0 →
        mul_div_rounding_up a b denominator =
          some (if denominator ∣ a * b then a * b / denominator
                else a * b / denominator + 1)) ∧
    ∀ a b : ℕ, mul_div_rounding_up a b 0 = none := by
  constructor
  · intro a b d hd
    unfold mul_div_rounding_up
    rw [if_neg hd]
    by_cases h : d ∣ a * b
    · rw [if_pos h]
      have hm : a * b % d = 0 := Nat.dvd_iff_mod_eq_zero.mp h
      simp [hm]
    · rw [if_neg h]
      have hm : a * b % d ≠ 0 := fun hc => h (Nat.dvd_iff_mod_eq_zero.mpr hc)
      simp [hm]
  · intro a b
    rfl

/-- Witness for C4 at the spec's own scenario: `mul_div_rounding_up 100 3 7
= ceil(300 / 7) = 43`, and a zero denominator fails. -/
theorem mul_div_rounding_up_spec_witness :
    mul_div_rounding_up 100 3 7 = some 43 ∧ mul_div_rounding_up 100 3 0 = none := by
  refine ⟨?_, mul_div_rounding_up_spec.2 100 3⟩
  rw [mul_div_rounding_up_spec.1 100 3 7 (by decide)]
  decide

/-- Claim C7 (refutation exhibit): because `invert_ratio_if_needed` returns
`None` on every path, both amount-delta functions raise `TypeError` while
unpacking it, for every input; they never produce an amount at all. -/
theorem amount_deltas_always_fail :
    ∀ (a b liquidity : ℕ) (round_up : Bool),
      get_amount_0_delta a b liquidity round_up = none ∧
      get_amount_1_delta a b liquidity round_up = none := by
  intro a b l r
  have h : invert_ratio_if_needed a b = none := by
    unfold invert_ratio_if_needed
    split <;> rfl
  constructor
  · unfold get_amount_0_delta
    rw [h]
  · unfold get_amount_1_delta
    rw [h]

/-- Claim C6 (refutation exhibit): with the pool at tick 0 (current sqrt
price `get_sqrt_ratio_at_tick 0`) and a position on `[-10, 10)`, the
within-range branch of `amount_in_token_0` passes
`get_sqrt_ratio_at_tick (-10)` - the lower-tick ratio - as the first delta
argument, and that differs from the pool's current sqrt price. -/
theorem amount_in_token_0_uses_lower_tick_ratio :
    amount_in_token_0_delta_args 0 (-10) 10 =
      some (get_sqrt_ratio_at_tick (-10), get_sqrt_ratio_at_tick 10) ∧
    get_sqrt_ratio_at_tick (-10) ≠ get_sqrt_ratio_at_tick 0 := by
  exact ⟨rfl, by decide⟩

/-- Claim C9 (refutation exhibit): `_ratios_after_slippage` never returns
clamped bounds - for every pool and every tolerance it raises (`NameError`
in the price computation, or `AssertionError` outside `(0, 1)`). -/
theorem ratios_after_slippage_always_fails :
    ∀ (pool : Pool) (slippage_tolerance : ℚ),
      ratios_after_slippage pool slippage_tolerance = none := by
  intro p s
  unfold ratios_after_slippage
  split <;> rfl

/-- Claim C10: every invocation of `Pool.__init__` fails with `NameError`
(`get_token_1_price` is an undefined unqualified name at line 64), so no
`Pool` value is ever produced by the public constructor. -/
theorem pool_init_always_fails :
    ∀ (token_0 token_1 : Token) (fee : ℤ) (square_root_ratio_x96 : ℕ)
      (liquidity : ℕ) (tick_current : ℤ) (ticks : List ℤ),
      Pool.init token_0 token_1 fee square_root_ratio_x96 liquidity
        tick_current ticks = none := by
  intro _ _ _ _ _ _ _
  rfl

/-! ## Claim C2: strict monotonicity of `get_sqrt_ratio_at_tick`

Strategy: the 20-step ladder factors (definitionally) through `low_ladder`
(bits 0-9) and `high_ladder` (bits 10-19).  `mul_shift` is monotone and
superadditive in its first argument, hence so is each conditional ladder
step, hence `high_ladder a` propagates gaps: if the low part decreases by
at least `g` then the whole ladder decreases by at least `high_ladder a g`.
Three exhaustive kernel checks over one 10-bit block each - the gaps of
`low_ladder`, the amplification `high_ladder (1024 * h) low_gap_min`, and
the inter-block boundaries - then give a uniform decrease of at least
`2 ^ 33 + 1 = 8589934593` per unit of `abs_tick`, from which strictness
survives both the final `/ 2 ^ 32` floor and, on the positive side, the
`MAX_UINT256 / ratio` reciprocal. -/

theorem mul_shift_mono {x y : ℕ} (c : ℕ) (h : x ≤ y) :
    mul_shift x c ≤ mul_shift y c := by
  unfold mul_shift
  simp only [Nat.shiftRight_eq_div_pow]
  exact Nat.div_le_div_right (Nat.mul_le_mul_right c h)

theorem mul_shift_superadd (x g c : ℕ) :
    mul_shift x c + mul_shift g c ≤ mul_shift (x + g) c := by
  unfold mul_shift
  simp only [Nat.shiftRight_eq_div_pow]
  rw [Nat.le_div_iff_mul_le (by positivity)]
  calc (x * c / 2 ^ 128 + g * c / 2 ^ 128) * 2 ^ 128
      = x * c / 2 ^ 128 * 2 ^ 128 + g * c / 2 ^ 128 * 2 ^ 128 := Nat.add_mul _ _ _
    _ ≤ x * c + g * c := Nat.add_le_add (Nat.div_mul_le_self _ _) (Nat.div_mul_le_self _ _)
    _ = (x + g) * c := (Nat.add_mul _ _ _).symm

theorem cond_step_mono (c : Prop) [Decidable c] (k : ℕ) {x y : ℕ} (h : x ≤ y) :
    (if c then mul_shift x k else x) ≤ (if c then mul_shift y k else y) := by
  split
  · exact mul_shift_mono k h
  · exact h

theorem cond_step_gap (c : Prop) [Decidable c] (k : ℕ) {x g y : ℕ} (h : x + g ≤ y) :
    (if c then mul_shift x k else x) + (if c then mul_shift g k else g) ≤
      (if c then mul_shift y k else y) := by
  split
  · exact le_trans (mul_shift_superadd x g k) (mul_shift_mono k h)
  · exact h

theorem cond_step_le (c : Prop) [Decidable c] {k : ℕ} (hk : k ≤ 2 ^ 128) (x : ℕ) :
    (if c then mul_shift x k else x) ≤ x := by
  split
  · unfold mul_shift
    rw [Nat.shiftRight_eq_div_pow]
    calc x * k / 2 ^ 128 ≤ x * 2 ^ 128 / 2 ^ 128 :=
          Nat.div_le_div_right (Nat.mul_le_mul_left x hk)
      _ = x := Nat.mul_div_cancel x (by positivity)
  · exact le_refl x

/-- `high_ladder a` is monotone in its accumulator argument. -/
theorem high_ladder_mono (a : ℕ) {x y : ℕ} (h : x ≤ y) :
    high_ladder a x ≤ high_ladder a y := by
  unfold high_ladder
  exact cond_step_mono _ _ (cond_step_mono _ _ (cond_step_mono _ _ (cond_step_mono _ _
    (cond_step_mono _ _ (cond_step_mono _ _ (cond_step_mono _ _ (cond_step_mono _ _
    (cond_step_mono _ _ (cond_step_mono _ _ h)))))))))

/-- `high_ladder a` propagates gaps: a decrease of `g` in the accumulator
becomes a decrease of at least `high_ladder a g`. -/
theorem high_ladder_gap (a : ℕ) {x g y : ℕ} (h : x + g ≤ y) :
    high_ladder a x + high_ladder a g ≤ high_ladder a y := by
  unfold high_ladder
  exact cond_step_gap _ _ (cond_step_gap _ _ (cond_step_gap _ _ (cond_step_gap _ _
    (cond_step_gap _ _ (cond_step_gap _ _ (cond_step_gap _ _ (cond_step_gap _ _
    (cond_step_gap _ _ (cond_step_gap _ _ h)))))))))

/-- Every ladder constant is at most `2 ^ 128`, so the ladder never
increases past its starting accumulator; with the starting values
`≤ 2 ^ 128` this bounds the whole ladder. -/
theorem ladder_ratio_le (a : ℕ) : ladder_ratio a ≤ 2 ^ 128 := by
  unfold ladder_ratio high_ladder low_ladder
  iterate 19 refine le_trans (cond_step_le _ (by norm_num) _) ?_
  split <;> norm_num

/-- A number has a nonzero and with `2 ^ i` exactly when its bit `i` is set. -/
theorem land_two_pow_ne_zero_iff (a i : ℕ) :
    a &&& 2 ^ i ≠ 0 ↔ a.testBit i = true := by
  constructor
  · intro h
    obtain ⟨j, hj⟩ := Nat.ne_zero_implies_bit_true h
    rw [Nat.testBit_and, Bool.and_eq_true] at hj
    obtain ⟨hja, hjp⟩ := hj
    rw [Nat.testBit_two_pow] at hjp
    have hij : i = j := of_decide_eq_true hjp
    rwa [← hij] at hja
  · intro h h0
    have hb : (a &&& 2 ^ i).testBit i = false := by
      rw [h0]; exact Nat.zero_testBit i
    rw [Nat.testBit_and, h, Nat.testBit_two_pow_self] at hb
    simp at hb

/-- Transfer of a ladder-step condition along equality of one bit. -/
theorem cond_iff_of_testBit {a b : ℕ} (i : ℕ) (h : a.testBit i = b.testBit i) :
    (a &&& 2 ^ i ≠ 0) ↔ (b &&& 2 ^ i ≠ 0) := by
  rw [land_two_pow_ne_zero_iff, land_two_pow_ne_zero_iff, h]

/-- `low_ladder` inspects only bits 0-9 of its argument. -/
theorem low_ladder_congr {a b : ℕ} (hab : a % 1024 = b % 1024) :
    low_ladder a = low_ladder b := by
  have ht : ∀ i, i < 10 → a.testBit i = b.testBit i := by
    intro i hi
    calc a.testBit i = (a % 2 ^ 10).testBit i := by
          rw [Nat.testBit_mod_two_pow]; simp [hi]
      _ = (b % 2 ^ 10).testBit i := by norm_num; rw [hab]
      _ = b.testBit i := by
          rw [Nat.testBit_mod_two_pow]; simp [hi]
  have e0 : (a &&& 1 ≠ 0) ↔ (b &&& 1 ≠ 0) := by
    have h := cond_iff_of_testBit 0 (ht 0 (by norm_num)); rw [show (2:ℕ) ^ 0 = 1 from by norm_num] at h; exact h
  have e1 : (a &&& 2 ≠ 0) ↔ (b &&& 2 ≠ 0) := by
    have h := cond_iff_of_testBit 1 (ht 1 (by norm_num)); rw [show (2:ℕ) ^ 1 = 2 from by norm_num] at h; exact h
  have e2 : (a &&& 4 ≠ 0) ↔ (b &&& 4 ≠ 0) := by
    have h := cond_iff_of_testBit 2 (ht 2 (by norm_num)); rw [show (2:ℕ) ^ 2 = 4 from by norm_num] at h; exact h
  have e3 : (a &&& 8 ≠ 0) ↔ (b &&& 8 ≠ 0) := by
    have h := cond_iff_of_testBit 3 (ht 3 (by norm_num)); rw [show (2:ℕ) ^ 3 = 8 from by norm_num] at h; exact h
  have e4 : (a &&& 16 ≠ 0) ↔ (b &&& 16 ≠ 0) := by
    have h := cond_iff_of_testBit 4 (ht 4 (by norm_num)); rw [show (2:ℕ) ^ 4 = 16 from by norm_num] at h; exact h
  have e5 : (a &&& 32 ≠ 0) ↔ (b &&& 32 ≠ 0) := by
    have h := cond_iff_of_testBit 5 (ht 5 (by norm_num)); rw [show (2:ℕ) ^ 5 = 32 from by norm_num] at h; exact h
  have e6 : (a &&& 64 ≠ 0) ↔ (b &&& 64 ≠ 0) := by
    have h := cond_iff_of_testBit 6 (ht 6 (by norm_num)); rw [show (2:ℕ) ^ 6 = 64 from by norm_num] at h; exact h
  have e7 : (a &&& 128 ≠ 0) ↔ (b &&& 128 ≠ 0) := by
    have h := cond_iff_of_testBit 7 (ht 7 (by norm_num)); rw [show (2:ℕ) ^ 7 = 128 from by norm_num] at h; exact h
  have e8 : (a &&& 256 ≠ 0) ↔ (b &&& 256 ≠ 0) := by
    have h := cond_iff_of_testBit 8 (ht 8 (by norm_num)); rw [show (2:ℕ) ^ 8 = 256 from by norm_num] at h; exact h
  have e9 : (a &&& 512 ≠ 0) ↔ (b &&& 512 ≠ 0) := by
    have h := cond_iff_of_testBit 9 (ht 9 (by norm_num)); rw [show (2:ℕ) ^ 9 = 512 from by norm_num] at h; exact h
  unfold low_ladder
  simp only [e0, e1, e2, e3, e4, e5, e6, e7, e8, e9]

/-- `high_ladder` inspects only bits 10-19 of its first argument. -/
theorem high_ladder_congr {a b : ℕ} (hab : a / 1024 = b / 1024) (x : ℕ) :
    high_ladder a x = high_ladder b x := by
  have hsh : a >>> 10 = b >>> 10 := by
    rw [Nat.shiftRight_eq_div_pow, Nat.shiftRight_eq_div_pow]
    norm_num
    exact hab
  have ht : ∀ i, a.testBit (10 + i) = b.testBit (10 + i) := by
    intro i
    calc a.testBit (10 + i) = (a >>> 10).testBit i := (Nat.testBit_shiftRight a).symm
      _ = (b >>> 10).testBit i := by rw [hsh]
      _ = b.testBit (10 + i) := Nat.testBit_shiftRight b
  have e0 : (a &&& 1024 ≠ 0) ↔ (b &&& 1024 ≠ 0) := by
    have h := cond_iff_of_testBit 10 (by simpa using ht 0); rw [show (2:ℕ) ^ 10 = 1024 from by norm_num] at h; exact h
  have e1 : (a &&& 2048 ≠ 0) ↔ (b &&& 2048 ≠ 0) := by
    have h := cond_iff_of_testBit 11 (by simpa using ht 1); rw [show (2:ℕ) ^ 11 = 2048 from by norm_num] at h; exact h
  have e2 : (a &&& 4096 ≠ 0) ↔ (b &&& 4096 ≠ 0) := by
    have h := cond_iff_of_testBit 12 (by simpa using ht 2); rw [show (2:ℕ) ^ 12 = 4096 from by norm_num] at h; exact h
  have e3 : (a &&& 8192 ≠ 0) ↔ (b &&& 8192 ≠ 0) := by
    have h := cond_iff_of_testBit 13 (by simpa using ht 3); rw [show (2:ℕ) ^ 13 = 8192 from by norm_num] at h; exact h
  have e4 : (a &&& 16384 ≠ 0) ↔ (b &&& 16384 ≠ 0) := by
    have h := cond_iff_of_testBit 14 (by simpa using ht 4); rw [show (2:ℕ) ^ 14 = 16384 from by norm_num] at h; exact h
  have e5 : (a &&& 32768 ≠ 0) ↔ (b &&& 32768 ≠ 0) := by
    have h := cond_iff_of_testBit 15 (by simpa using ht 5); rw [show (2:ℕ) ^ 15 = 32768 from by norm_num] at h; exact h
  have e6 : (a &&& 65536 ≠ 0) ↔ (b &&& 65536 ≠ 0) := by
    have h := cond_iff_of_testBit 16 (by simpa using ht 6); rw [show (2:ℕ) ^ 16 = 65536 from by norm_num] at h; exact h
  have e7 : (a &&& 131072 ≠ 0) ↔ (b &&& 131072 ≠ 0) := by
    have h := cond_iff_of_testBit 17 (by simpa using ht 7); rw [show (2:ℕ) ^ 17 = 131072 from by norm_num] at h; exact h
  have e8 : (a &&& 262144 ≠ 0) ↔ (b &&& 262144 ≠ 0) := by
    have h := cond_iff_of_testBit 18 (by simpa using ht 8); rw [show (2:ℕ) ^ 18 = 262144 from by norm_num] at h; exact h
  have e9 : (a &&& 524288 ≠ 0) ↔ (b &&& 524288 ≠ 0) := by
    have h := cond_iff_of_testBit 19 (by simpa using ht 9); rw [show (2:ℕ) ^ 19 = 524288 from by norm_num] at h; exact h
  unfold high_ladder
  simp only [e0, e1, e2, e3, e4, e5, e6, e7, e8, e9]

/-- Exhaustive check over the 10-bit block: `low_ladder` decreases by at
least `low_gap_min` at each step. -/
theorem low_ladder_gaps :
    ∀ l, l < 1023 → low_ladder (l + 1) + low_gap_min ≤ low_ladder l := by
  decide

/-- Exhaustive check over the high 10-bit block: every high half-ladder
maps a gap of `low_gap_min` to a gap of at least `2 ^ 33 + 1`. -/
theorem high_ladder_amplifies_gap :
    ∀ h, h < 867 → 8589934593 ≤ high_ladder (1024 * h) low_gap_min := by
  decide

/-- Exhaustive check of the inter-block boundaries: stepping from
`abs_tick = 1024 * h + 1023` to `1024 * (h + 1)` decreases the ladder by at
least `2 ^ 33 + 1`. -/
theorem block_boundary_gap :
    ∀ h, h < 866 → high_ladder (1024 * (h + 1)) (2 ^ 128) + 8589934593 ≤
      high_ladder (1024 * h) (low_ladder 1023) := by
  decide

/-- The ladder value at the largest in-domain `abs_tick` is positive. -/
theorem ladder_at_max_pos : 1 ≤ ladder_ratio 887272 := by
  decide

/-- Uniform gap: on the tick domain the ladder decreases by more than
`2 ^ 33` per unit of `abs_tick`. -/
theorem ladder_gap (a : ℕ) (ha : a < 887272) :
    ladder_ratio (a + 1) + 8589934593 ≤ ladder_ratio a := by
  obtain ⟨h, l, rfl, hl⟩ : ∃ h l, a = 1024 * h + l ∧ l < 1024 :=
    ⟨a / 1024, a % 1024, (Nat.div_add_mod a 1024).symm, Nat.mod_lt a (by norm_num)⟩
  by_cases hl3 : l = 1023
  · subst hl3
    have hh : h < 866 := by omega
    have e1 : ladder_ratio (1024 * h + 1023) = high_ladder (1024 * h) (low_ladder 1023) := by
      unfold ladder_ratio
      rw [high_ladder_congr (a := 1024 * h + 1023) (b := 1024 * h) (by omega),
        low_ladder_congr (a := 1024 * h + 1023) (b := 1023) (by omega)]
    have e2 : ladder_ratio (1024 * h + 1023 + 1) = high_ladder (1024 * (h + 1)) (2 ^ 128) := by
      unfold ladder_ratio
      have hstep : 1024 * h + 1023 + 1 = 1024 * (h + 1) := by ring
      rw [hstep, low_ladder_congr (a := 1024 * (h + 1)) (b := 0) (by omega),
        show low_ladder 0 = 2 ^ 128 from by decide]
    rw [e1, e2]
    exact block_boundary_gap h hh
  · have hl' : l < 1023 := by omega
    have hh : h < 867 := by omega
    have e1 : ladder_ratio (1024 * h + l) = high_ladder (1024 * h) (low_ladder l) := by
      unfold ladder_ratio
      rw [high_ladder_congr (a := 1024 * h + l) (b := 1024 * h) (by omega),
        low_ladder_congr (a := 1024 * h + l) (b := l) (by omega)]
    have e2 : ladder_ratio (1024 * h + l + 1) = high_ladder (1024 * h) (low_ladder (l + 1)) := by
      unfold ladder_ratio
      rw [high_ladder_congr (a := 1024 * h + l + 1) (b := 1024 * h) (by omega),
        low_ladder_congr (a := 1024 * h + l + 1) (b := l + 1) (by omega)]
    rw [e1, e2]
    have hstep := low_ladder_gaps l hl'
    have hamp := high_ladder_amplifies_gap h hh
    have hprop := high_ladder_gap (1024 * h) hstep
    omega

/-- The ladder is positive on the whole tick domain. -/
theorem ladder_ratio_pos {a : ℕ} (ha : a ≤ 887272) : 1 ≤ ladder_ratio a := by
  rcases Nat.lt_or_ge a 887272 with hlt | hge
  · have := ladder_gap a hlt
    omega
  · have heq : a = 887272 := le_antisymm ha hge
    subst heq
    exact ladder_at_max_pos

/-- The final conversion of `get_sqrt_ratio_at_tick` is the floor by
`2 ^ 32` (the `ratio % q32 >= 0` test is always true and `+ ZERO` adds
nothing). -/
theorem get_sqrt_eq_floor (t : ℤ) :
    get_sqrt_ratio_at_tick t = tick_ratio_x128 t / 2 ^ 32 := by
  unfold get_sqrt_ratio_at_tick
  simp

/-- For non-positive ticks the Q128.128 accumulator is the plain ladder at
the absolute value. -/
theorem tick_ratio_x128_nonpos {t : ℤ} (ht : t ≤ 0) :
    tick_ratio_x128 t = ladder_ratio (-t).toNat := by
  have h2 : (if t < 0 then t * (-1) else t) = -t := by
    split
    · ring
    · omega
  simp only [tick_ratio_x128, h2]
  rw [if_neg (by omega : ¬ t > 0)]

/-- For positive ticks the accumulator is the reciprocal of the ladder. -/
theorem tick_ratio_x128_pos {t : ℤ} (ht : 0 < t) :
    tick_ratio_x128 t = MAX_UINT256 / ladder_ratio t.toNat := by
  have h2 : (if t < 0 then t * (-1) else t) = t := by
    rw [if_neg (by omega : ¬ t < 0)]
  simp only [tick_ratio_x128, h2]
  rw [if_pos ht]

/-- Adjacent-tick step, negative side. -/
theorem get_sqrt_step_neg {t : ℤ} (h1 : MIN_TICK ≤ t) (h2 : t < 0) :
    get_sqrt_ratio_at_tick t < get_sqrt_ratio_at_tick (t + 1) := by
  have h1' : -887272 ≤ t := by simpa [MIN_TICK] using h1
  set a : ℕ := (-(t + 1)).toNat with ha
  have haN : (-t).toNat = a + 1 := by omega
  have haLT : a < 887272 := by omega
  rw [get_sqrt_eq_floor, get_sqrt_eq_floor, tick_ratio_x128_nonpos (le_of_lt h2),
    tick_ratio_x128_nonpos (by omega : t + 1 ≤ 0), haN, ← ha]
  have hg := ladder_gap a haLT
  have step : ladder_ratio (a + 1) + 2 ^ 32 ≤ ladder_ratio a := by
    have hp : (2:ℕ) ^ 32 = 4294967296 := by norm_num
    omega
  calc ladder_ratio (a + 1) / 2 ^ 32
      < ladder_ratio (a + 1) / 2 ^ 32 + 1 := Nat.lt_succ_self _
    _ = (ladder_ratio (a + 1) + 2 ^ 32) / 2 ^ 32 := (Nat.add_div_right _ (by positivity)).symm
    _ ≤ ladder_ratio a / 2 ^ 32 := Nat.div_le_div_right step

/-- Adjacent-tick step across zero. -/
theorem get_sqrt_step_zero :
    get_sqrt_ratio_at_tick 0 < get_sqrt_ratio_at_tick (0 + 1) := by
  decide

/-- Adjacent-tick step, positive side: the reciprocal `MAX_UINT256 / r`
reverses the ladder's decrease, and the uniform gap of more than `2 ^ 33`
beats the `2 ^ 32` floor granularity even after the division. -/
theorem get_sqrt_step_pos {t : ℤ} (h1 : 1 ≤ t) (h2 : t < MAX_TICK) :
    get_sqrt_ratio_at_tick t < get_sqrt_ratio_at_tick (t + 1) := by
  have h2' : t < 887272 := by simpa [MAX_TICK] using h2
  set a : ℕ := t.toNat with ha
  have haN : (t + 1).toNat = a + 1 := by omega
  have hlt : a < 887272 := by omega
  rw [get_sqrt_eq_floor, get_sqrt_eq_floor, tick_ratio_x128_pos (by omega),
    tick_ratio_x128_pos (by omega : (0:ℤ) < t + 1), haN, ← ha]
  rw [Nat.div_div_eq_div_mul, Nat.div_div_eq_div_mul]
  set A := ladder_ratio a with hA
  set B := ladder_ratio (a + 1) with hB
  have hgap : B + 8589934593 ≤ A := ladder_gap a hlt
  have hAle : A ≤ 2 ^ 128 := ladder_ratio_le a
  have hBpos : 1 ≤ B := ladder_ratio_pos (by omega)
  have hApos : 1 ≤ A := le_trans hBpos (by omega)
  have hBle : B ≤ 2 ^ 128 := le_trans (by omega) hAle
  have hMpos : (0:ℕ) < B * 2 ^ 32 := by positivity
  have key : MAX_UINT256 / (A * 2 ^ 32) + 1 ≤ MAX_UINT256 / (B * 2 ^ 32) := by
    rw [Nat.le_div_iff_mul_le hMpos]
    set q := MAX_UINT256 / (A * 2 ^ 32) with hq
    have hqA : q * (A * 2 ^ 32) ≤ MAX_UINT256 := Nat.div_mul_le_self _ _
    have hq95 : 2 ^ 95 ≤ q := by
      have hd : A * 2 ^ 32 ≤ 2 ^ 160 := by
        calc A * 2 ^ 32 ≤ 2 ^ 128 * 2 ^ 32 := Nat.mul_le_mul_right _ hAle
          _ = 2 ^ 160 := by norm_num
      have hdpos : (0:ℕ) < A * 2 ^ 32 := by positivity
      calc (2:ℕ) ^ 95 ≤ MAX_UINT256 / 2 ^ 160 := by decide
        _ ≤ q := Nat.div_le_div_left hd hdpos
    have hBq : B ≤ q * 8589934593 := by
      calc B ≤ 2 ^ 128 := hBle
        _ = 2 ^ 95 * 2 ^ 33 := by norm_num
        _ ≤ q * 8589934593 := Nat.mul_le_mul hq95 (by norm_num)
    calc (q + 1) * (B * 2 ^ 32) = q * (B * 2 ^ 32) + B * 2 ^ 32 := by ring
      _ ≤ q * (B * 2 ^ 32) + q * 8589934593 * 2 ^ 32 := by
          have hm := Nat.mul_le_mul_right (2 ^ 32) hBq
          omega
      _ = q * ((B + 8589934593) * 2 ^ 32) := by ring
      _ ≤ q * (A * 2 ^ 32) := Nat.mul_le_mul_left q (Nat.mul_le_mul_right _ hgap)
      _ ≤ MAX_UINT256 := hqA
  omega

/-- Adjacent-tick step on the whole domain. -/
theorem get_sqrt_step {t : ℤ} (h1 : MIN_TICK ≤ t) (h2 : t < MAX_TICK) :
    get_sqrt_ratio_at_tick t < get_sqrt_ratio_at_tick (t + 1) := by
  rcases lt_trichotomy t 0 with h | h | h
  · exact get_sqrt_step_neg h1 h
  · subst h
    exact get_sqrt_step_zero
  · exact get_sqrt_step_pos (by omega) h2

/-- Claim C2: `get_sqrt_ratio_at_tick` is strictly increasing on the tick
domain: for `MIN_TICK ≤ t1 < t2 ≤ MAX_TICK` the Q64.96 sqrt price at `t1`
is strictly below the one at `t2`. -/
theorem get_sqrt_ratio_at_tick_strict_mono :
    ∀ t1 t2 : ℤ, MIN_TICK ≤ t1 → t1 < t2 → t2 ≤ MAX_TICK →
      get_sqrt_ratio_at_tick t1 < get_sqrt_ratio_at_tick t2 := by
  have key : ∀ n : ℕ, ∀ t : ℤ, MIN_TICK ≤ t → t + ((n : ℤ) + 1) ≤ MAX_TICK →
      get_sqrt_ratio_at_tick t < get_sqrt_ratio_at_tick (t + ((n : ℤ) + 1)) := by
    intro n
    induction n with
    | zero =>
      intro t ht hb
      have hlt : t < MAX_TICK := by omega
      simpa using get_sqrt_step ht hlt
    | succ m ih =>
      intro t ht hb
      have hb' : t + ((m : ℤ) + 1) ≤ MAX_TICK := by push_cast at hb ⊢; omega
      have hmid : MIN_TICK ≤ t + ((m : ℤ) + 1) := by omega
      have hmax : t + ((m : ℤ) + 1) < MAX_TICK := by push_cast at hb; omega
      have h2 := get_sqrt_step hmid hmax
      have he : t + (((m + 1 : ℕ) : ℤ) + 1) = t + ((m : ℤ) + 1) + 1 := by push_cast; ring
      rw [he]
      exact lt_trans (ih t ht hb') h2
  intro t1 t2 ha hab hb
  obtain ⟨n, hn⟩ : ∃ n : ℕ, t2 = t1 + ((n : ℤ) + 1) := by
    refine ⟨(t2 - t1 - 1).toNat, ?_⟩
    omega
  rw [hn]
  apply key n t1 ha
  rw [← hn]
  exact hb

/-- Witness for C2 at the concrete pair `t1 = -1 < 1 = t2`. -/
theorem get_sqrt_ratio_at_tick_strict_mono_witness :
    MIN_TICK ≤ (-1 : ℤ) ∧ (-1 : ℤ) < 1 ∧ (1 : ℤ) ≤ MAX_TICK ∧
    get_sqrt_ratio_at_tick (-1) < get_sqrt_ratio_at_tick 1 :=
  ⟨by decide, by decide, by decide,
    get_sqrt_ratio_at_tick_strict_mono (-1) 1 (by decide) (by decide) (by decide)⟩
